import Mathlib

/-!
Shallow embedding of the FreeSight real-time sensory feedback orchestrator
(frontend client logic): the haptic channel (useHaptic.js), the voice command
listener (useVoiceControl.js), the audio feedback channel (useAudio.js), the
capture source (useCamera.js) and the scan orchestrator (App.jsx).

Stateful React hook code is embedded as explicit state records with pure step
functions; device interactions (vibration actuator, audio element, camera
stream, recognition session) are reflected as returned action data or
parameters supplying the device outcome. A handler that reads component state
through a stale closure is parameterized by the captured value of that state
(fixed at the render where the closure was created), while refs and state
setters act on the live store; handlers that read only refs or take their
data as arguments need no such parameter.
-/

namespace FreeSight

/-! ## Haptic channel (src/frontend/src/hooks/useHaptic.js) -/

/-- Vibration pattern table HAPTIC_PATTERNS: name to pulse/pause
millisecond sequence. Lookup returns none for an unknown name. -/
def hapticPatternLookup (name : String) : Option (List Nat) :=
  if name = "info" then some [50]
  else if name = "low" then some [100, 50, 100]
  else if name = "medium" then some [150, 100, 150, 100, 150]
  else if name = "high" then some [300, 100, 300, 100, 300, 200, 100, 50, 100, 50, 100]
  else if name = "panic" then some [200, 100, 200, 100, 200, 100, 200, 100, 200]
  else if name = "success" then some [30]
  else if name = "tap" then some [10]
  else none

/-- The seven defined pattern names, in declaration order. -/
def hapticPatternNames : List String :=
  ["info", "low", "medium", "high", "panic", "success", "tap"]

/-- State of the useHaptic hook that the vibrate guard reads. -/
structure HapticState where
  isSupported : Bool
  isEnabled : Bool
  deriving Repr, DecidableEq

/-- Embedding of vibrate(pattern) for a string pattern name: returns the
pattern actually sent to the vibration actuator (none when nothing fires)
and the boolean result returned to the caller. An unknown name falls back
to the info pattern via the JS expression
HAPTIC_PATTERNS[pattern] || HAPTIC_PATTERNS.info. The actuator is modelled
as accepting every issued pattern (navigator.vibrate returning true). -/
def vibrate (s : HapticState) (name : String) : Option (List Nat) × Bool :=
  if !s.isSupported || !s.isEnabled then (none, false)
  else
    let patternArray := (hapticPatternLookup name).getD [50]
    (some patternArray, true)

/-- Embedding of vibrateForDanger(panicLevel, isPanic): the JS switch over
panicLevel with the isPanic override, returning false with no vibration
for the default branch. -/
def vibrateForDanger (s : HapticState) (panicLevel : String) (isPanic : Bool) :
    Option (List Nat) × Bool :=
  if isPanic then vibrate s "panic"
  else if panicLevel = "high" then vibrate s "high"
  else if panicLevel = "medium" then vibrate s "medium"
  else if panicLevel = "low" then vibrate s "low"
  else (none, false)

/-! ## Audio feedback channel (src/frontend/src/hooks/useAudio.js) -/

/-- State of the useAudio hook. playing is the current Audio element with
its data URL (audioRef/currentAudio); isPlaying is the React flag the hook
sets in the element callbacks; queue is the FIFO of pending data URLs. -/
structure AudioState where
  isPlaying : Bool
  isMuted : Bool
  playing : Option String
  queue : List String
  deriving Repr, DecidableEq

/-- Initial state of the useAudio hook: nothing playing, unmuted, empty
queue. -/
def initialAudioState : AudioState :=
  { isPlaying := false, isMuted := false, playing := none, queue := [] }

/-- Embedding of playAudioData(audioData) as the closure created in a given
render: the early-return mute guard tests that render's isMuted value
(useCallback deps isMuted and volume refresh only the copy later renders
hand out); when the guard passes, the new Audio element starts playing
(onplay sets isPlaying). -/
def playAudioDataClosure (capturedIsMuted : Bool) (audioData : String)
    (s : AudioState) : AudioState :=
  if capturedIsMuted then s
  else { s with playing := some audioData, isPlaying := true }

/-- Embedding of playBase64Audio(base64Audio, priority): a falsy payload is
ignored; a priority item pauses and drops the current element, clears the
queue, then plays; a normal item appends to the queue. playBase64Audio is
memoized with an empty dependency list, so its priority path forever calls
the first-render playAudioData closure, whose captured isMuted is the
initial false. -/
def playBase64Audio (base64Audio : String) (priority : Bool) (s : AudioState) :
    AudioState :=
  if base64Audio = "" then s
  else if priority then
    playAudioDataClosure false base64Audio { s with playing := none, queue := [] }
  else
    { s with queue := s.queue ++ [base64Audio] }

/-- Embedding of toggleMute(): flips the muted flag and nothing else. -/
def toggleMute (s : AudioState) : AudioState :=
  { s with isMuted := !s.isMuted }

/-- Embedding of the App.jsx handleVoiceCommand branch for the mute voice
command: an unconditional audioRef.current?.toggleMute(). -/
def voiceMuteCommand (s : AudioState) : AudioState :=
  toggleMute s

/-- Embedding of the App.jsx handleVoiceCommand branch for the unmute voice
command: toggleMute() only when currently muted. -/
def voiceUnmuteCommand (s : AudioState) : AudioState :=
  if s.isMuted then toggleMute s else s

/-! ## Voice command listener (src/frontend/src/hooks/useVoiceControl.js) -/

/-- Checks whether the character sequence hay starts with needle. -/
def leadsWith : List Char → List Char → Bool
  | [], _ => true
  | _ :: _, [] => false
  | c :: cs, d :: ds => c == d && leadsWith cs ds

/-- Checks whether needle occurs as a contiguous subsequence of hay,
mirroring the JS String.prototype.includes test. -/
def containsSeq (needle : List Char) : List Char → Bool
  | [] => leadsWith needle []
  | d :: ds => leadsWith needle (d :: ds) || containsSeq needle ds

/-- String form of containsSeq: normalized.includes(alias). -/
def strIncludes (hay needle : String) : Bool :=
  containsSeq needle.data hay.data

/-- The VOICE_COMMANDS alias table, in declaration order. -/
def VOICE_COMMANDS : List (String × List String) :=
  [("scan", ["scan", "look", "check", "analyze", "what do you see", "describe"]),
   ("stop", ["stop", "halt", "pause", "wait"]),
   ("start", ["start", "begin", "go", "resume", "continue"]),
   ("help", ["help", "commands", "what can i say", "options"]),
   ("mute", ["mute", "quiet", "silence", "shut up"]),
   ("unmute", ["unmute", "sound on", "speak"]),
   ("repeat", ["repeat", "again", "say again", "what"])]

/-- ASCII whitespace removed by the JS trim at the string ends. -/
def isWhitespaceChar (c : Char) : Bool :=
  c == ' ' || c == '\t' || c == '\n' || c == '\r'

/-- Removes leading and trailing whitespace from a character sequence. -/
def trimChars (l : List Char) : List Char :=
  ((l.dropWhile isWhitespaceChar).reverse.dropWhile isWhitespaceChar).reverse

/-- The lower-cased and trimmed transcript tested against the alias table:
text.toLowerCase().trim(). -/
def normalizeTranscript (text : String) : String :=
  String.mk (trimChars (text.data.map Char.toLower))

/-- True when some alias in the list occurs in the normalized transcript. -/
def anyAliasHits (normalized : String) (aliases : List String) : Bool :=
  aliases.any (fun a => strIncludes normalized a)

/-- First command in the table any of whose aliases occurs in the
normalized text. -/
def firstMatch (normalized : String) : List (String × List String) → Option String
  | [] => none
  | p :: rest =>
    if anyAliasHits normalized p.2 then some p.1
    else firstMatch normalized rest

/-- Embedding of matchCommand(text): lower-case and trim, then scan
VOICE_COMMANDS in declaration order and return the first command any of
whose aliases is a substring; null when nothing matches. -/
def matchCommand (text : String) : Option String :=
  firstMatch (normalizeTranscript text) VOICE_COMMANDS

/-- State of the useVoiceControl hook read by the recognition handlers.
hasRecognition models recognitionRef.current being non-null, and
restartPending models the armed setTimeout continuation of onend. -/
structure ListenerState where
  isEnabled : Bool
  isListening : Bool
  continuousMode : Bool
  hasRecognition : Bool
  restartPending : Bool
  transcript : String
  lastCommand : Option String
  error : Option String
  deriving Repr, DecidableEq

/-- Embedding of recognition.onresult fed one event carrying the
concatenated final and interim transcripts: the display transcript becomes
the final text when non-empty and the interim text otherwise; a command is
emitted (returned) only for a non-empty final transcript that matches. -/
def onResult (finalTranscript interimTranscript : String) (s : ListenerState) :
    ListenerState × Option String :=
  let s1 := { s with transcript :=
    if finalTranscript ≠ "" then finalTranscript else interimTranscript }
  if finalTranscript ≠ "" then
    match matchCommand finalTranscript with
    | some command =>
      ({ s1 with lastCommand := some command }, some command)
    | none => (s1, none)
  else (s1, none)

/-- Embedding of recognition.onerror: not-allowed surfaces a fixed message
and disables; aborted and no-speech are swallowed; every other code is
surfaced as-is; isListening is cleared in every case. -/
def onError (code : String) (s : ListenerState) : ListenerState :=
  let s1 :=
    if code = "not-allowed" then
      { s with error := some "Microphone access denied", isEnabled := false }
    else if code ≠ "aborted" ∧ code ≠ "no-speech" then
      { s with error := some code }
    else s
  { s1 with isListening := false }

/-- The isEnabled value baked into the recognition event handlers. The
handlers are attached once, when initRecognition() runs inside
startListening; at that moment isEnabled is still false (startListening is
only reached with the listener disabled, and setIsEnabled(true) follows
the creation), and they are never reattached afterwards: stopListening
keeps recognitionRef.current, so the object is never recreated. -/
def handlersCapturedIsEnabled : Bool := false

/-- Embedding of recognition.onend as attached in the source: isListening
is cleared, and the delayed restart (setTimeout 100ms) is armed only when
the isEnabled value captured at handler-creation time is true, in
continuous mode with a live recognition ref; the setTimeout body re-tests
the same captured isEnabled, so an armed restart would start the session
again under that same captured flag. -/
def onEndClosure (capturedIsEnabled : Bool) (s : ListenerState) :
    ListenerState :=
  let s1 := { s with isListening := false }
  if capturedIsEnabled && s1.continuousMode && s1.hasRecognition then
    { s1 with restartPending := true }
  else s1

/-! ## Capture source (src/frontend/src/hooks/useCamera.js) -/

/-- State of the useCamera hook. stream identifies the live MediaStream by
a numeric id (none when stopped); getUserMedia outcomes are supplied as an
Option Nat parameter: some id is a granted fresh stream, none a failure. -/
structure CameraState where
  isActive : Bool
  facingMode : String
  stream : Option Nat
  hasPermission : Option Bool
  error : Option String
  deriving Repr, DecidableEq

/-- Primitive device actions toggleCamera performs, in order. -/
inductive CamAction where
  | stopStream : CamAction
  | waitMs : Nat → CamAction
  | startStream : String → CamAction
  deriving Repr, DecidableEq

/-- Embedding of startCamera() as the closure from a given render: the
getUserMedia config requests that render's facingMode (startCamera is
memoized on facingMode, so the request facing is fixed when the closure is
created); the emitted action records the facing actually requested. On a
granted stream the error is cleared and the stream becomes active; on
failure the message is recorded, permission marked denied and the camera
inactive. -/
def startCameraClosure (capturedFacingMode : String) (outcome : Option Nat)
    (errMsg : String) (s : CameraState) : CameraState × List CamAction :=
  match outcome with
  | some id =>
    ({ s with error := none, stream := some id, isActive := true,
              hasPermission := some true },
     [CamAction.startStream capturedFacingMode])
  | none =>
    ({ s with error := some errMsg, hasPermission := some false,
              isActive := false },
     [CamAction.startStream capturedFacingMode])

/-- Embedding of stopCamera(): stops every track and detaches the video. -/
def stopCamera (s : CameraState) : CameraState :=
  { s with stream := none, isActive := false }

/-- The opposite facing mode computed by toggleCamera. -/
def oppositeFacing (facingMode : String) : String :=
  if facingMode = "environment" then "user" else "environment"

/-- Embedding of toggleCamera(): sets facingMode to the opposite value,
and when active stops the stream, waits 100ms for the hardware release,
and calls the startCamera closure captured from the current render — whose
facingMode is still the pre-toggle value, so the restart requests the old
facing mode; returns the device actions performed in order. -/
def toggleCamera (outcome : Option Nat) (errMsg : String) (s : CameraState) :
    CameraState × List CamAction :=
  let newFacingMode := oppositeFacing s.facingMode
  let s1 := { s with facingMode := newFacingMode }
  if s1.isActive then
    let r := startCameraClosure s.facingMode outcome errMsg (stopCamera s1)
    (r.1, CamAction.stopStream :: CamAction.waitMs 100 :: r.2)
  else (s1, [])

/-- Embedding of captureFrame() as seen by the orchestrator: the snapshot
is drawn from whatever stream the video element currently holds. -/
def captureStream (s : CameraState) : Option Nat :=
  s.stream

/-! ## Scan orchestrator (src/frontend/src/App.jsx) -/

/-- Hazard result of one analysis, as consumed by handleScan. -/
structure HazardResult where
  detections : List String
  description : String
  panic_level : String
  panic : Bool
  audio_base64 : Option String
  deriving Repr, DecidableEq

/-- Orchestrator state owned by App.jsx. cameraActive mirrors
cameraRef.current?.isActive. -/
structure AppState where
  cameraActive : Bool
  isAnalyzing : Bool
  isScanning : Bool
  error : Option String
  lastDescription : String
  deriving Repr, DecidableEq

/-- Effects the scan pipeline fires once the handleScan guard passes. -/
inductive ScanAction where
  | tapHaptic : ScanAction
  | captureAndAnalyze : ScanAction
  deriving Repr, DecidableEq

/-- Embedding of the synchronous head of handleScan() as the closure from
a given render: the camera-activity test reads the live cameraRef, but the
isAnalyzing test reads the value that render captured (handleScan is
memoized on isAnalyzing, so each closure carries the isAnalyzing of its
creation render); when the guard passes, isAnalyzing is set in the live
store, the error slot cleared, the tap haptic fired and the
capture-then-analyze pipeline started. -/
def handleScanClosure (capturedIsAnalyzing : Bool) (s : AppState) :
    AppState × List ScanAction :=
  if !s.cameraActive || capturedIsAnalyzing then (s, [])
  else
    ({ s with isAnalyzing := true, error := none },
     [ScanAction.tapHaptic, ScanAction.captureAndAnalyze])

/-- handleScan invoked through an up-to-date closure, as on a fresh render
after every state update: the captured isAnalyzing is the current one. -/
def handleScanStart (s : AppState) : AppState × List ScanAction :=
  handleScanClosure s.isAnalyzing s

/-- Embedding of the interval callback armed by startContinuousScanning:
both the isAnalyzing value it tests and the handleScan closure it invokes
are captured at arming time and never refreshed (the interval is armed
once and not re-armed when state changes), so a tick consults the arming
render's isAnalyzing twice and the live store not at all. -/
def armedTick (armedIsAnalyzing : Bool) (s : AppState) :
    AppState × List ScanAction :=
  if armedIsAnalyzing then (s, [])
  else handleScanClosure armedIsAnalyzing s

/-- Embedding of the handleScan continuation once the awaited analysis
resolves: on success the result is fanned out and on failure the error
slot and apology are set; the finally block clears isAnalyzing in both
cases. -/
def scanResolve (outcome : Option HazardResult) (s : AppState) : AppState :=
  match outcome with
  | some r =>
    { s with lastDescription := r.description, isAnalyzing := false }
  | none =>
    { s with error := some "Scan error", isAnalyzing := false }

/-! ## Helper lemmas -/

/-- firstMatch returns none exactly when no entry of the table has a
matching alias. -/
theorem firstMatch_eq_none_iff (n : String) (l : List (String × List String)) :
    firstMatch n l = none ↔ ∀ p ∈ l, anyAliasHits n p.2 = false := by
  induction l with
  | nil => simp [firstMatch]
  | cons hd tl ih =>
    by_cases hhd : anyAliasHits n hd.2 = true
    · simp [firstMatch, hhd]
    · simp at hhd
      simp [firstMatch, hhd, ih]

/-- firstMatch returns a command exactly when some entry of the table has
a matching alias, every entry before it has none, and the entry carries
that command: first match in declaration order wins. -/
theorem firstMatch_eq_some_iff (n : String) (l : List (String × List String))
    (c : String) :
    firstMatch n l = some c ↔
      ∃ l1 p l2, l = l1 ++ p :: l2 ∧ p.1 = c ∧ anyAliasHits n p.2 = true ∧
        ∀ q ∈ l1, anyAliasHits n q.2 = false := by
  induction l with
  | nil =>
    simp only [firstMatch]
    constructor
    · intro h
      exact absurd h (by simp)
    · rintro ⟨l1, p, l2, heq, -⟩
      cases l1 <;> simp at heq
  | cons hd tl ih =>
    by_cases hhd : anyAliasHits n hd.2 = true
    · constructor
      · intro h
        have hc : hd.1 = c := by simpa [firstMatch, hhd] using h
        refine ⟨[], hd, tl, rfl, hc, hhd, ?_⟩
        intro q hq
        simp at hq
      · rintro ⟨l1, p, l2, heq, hpc, hpa, hall⟩
        cases l1 with
        | nil =>
          simp at heq
          obtain ⟨h1, h2⟩ := heq
          simp only [firstMatch, hhd, if_true]
          rw [h1, hpc]
        | cons q l1 =>
          exfalso
          simp at heq
          obtain ⟨h1, h2⟩ := heq
          have hq := hall q (by simp)
          rw [← h1] at hq
          rw [hq] at hhd
          exact absurd hhd (by simp)
    · have hhd2 : anyAliasHits n hd.2 = false := by simpa using hhd
      constructor
      · intro h
        have h2 : firstMatch n tl = some c := by
          simpa [firstMatch, hhd2] using h
        obtain ⟨l1, p, l2, heq, hpc, hpa, hall⟩ := ih.mp h2
        refine ⟨hd :: l1, p, l2, by rw [heq]; simp, hpc, hpa, ?_⟩
        intro q hq
        rcases List.mem_cons.mp hq with h1 | h1
        · rw [h1]
          exact hhd2
        · exact hall q h1
      · rintro ⟨l1, p, l2, heq, hpc, hpa, hall⟩
        cases l1 with
        | nil =>
          simp at heq
          obtain ⟨h1, h2⟩ := heq
          rw [h1] at hhd2
          rw [hhd2] at hpa
          exact absurd hpa (by simp)
        | cons q l1 =>
          simp at heq
          obtain ⟨h1, h2⟩ := heq
          have h3 : firstMatch n tl = some c := by
            apply ih.mpr
            exact ⟨l1, p, l2, h2, hpc, hpa, fun r hr => hall r (by simp [hr])⟩
          simp [firstMatch, hhd2, h3]

/-! ## Claim theorems -/

/-- C1: the no-overlap policy fails on the code. Continuous mode is armed
from Idle, so the interval callback and the handleScan closure it captured
both carry isAnalyzing pinned to false. The first scan (launched by
startContinuousScanning) puts the live store into Analyzing, yet a timer
tick firing while that analysis is still in flight passes both stale
guards and launches a second full capture-and-analyze pipeline — two
concurrent Analyzing scans, where an up-to-date closure (the behaviour the
claim asserts) would have been a silent no-op. -/
theorem continuousTick_overlapping_analysis :
    (handleScanClosure false
      { cameraActive := true, isAnalyzing := false, isScanning := true,
        error := none, lastDescription := "" }).1.isAnalyzing = true ∧
    (armedTick false
      (handleScanClosure false
        { cameraActive := true, isAnalyzing := false, isScanning := true,
          error := none, lastDescription := "" }).1).2 =
      [ScanAction.tapHaptic, ScanAction.captureAndAnalyze] ∧
    handleScanStart
      (handleScanClosure false
        { cameraActive := true, isAnalyzing := false, isScanning := true,
          error := none, lastDescription := "" }).1 =
      ((handleScanClosure false
        { cameraActive := true, isAnalyzing := false, isScanning := true,
          error := none, lastDescription := "" }).1, []) := by
  decide

/-- C2: with haptics supported and enabled, vibrateForDanger fires the
panic pattern whenever isPanic is true regardless of panicLevel, fires the
high, medium and low patterns for those panicLevel values when isPanic is
false, and for none or any other panicLevel value fires nothing and
returns false. -/
theorem vibrateForDanger_selection (s : HapticState) (panicLevel : String)
    (hs : s.isSupported = true) (he : s.isEnabled = true) :
    vibrateForDanger s panicLevel true =
      (some [200, 100, 200, 100, 200, 100, 200, 100, 200], true) ∧
    vibrateForDanger s "high" false =
      (some [300, 100, 300, 100, 300, 200, 100, 50, 100, 50, 100], true) ∧
    vibrateForDanger s "medium" false =
      (some [150, 100, 150, 100, 150], true) ∧
    vibrateForDanger s "low" false = (some [100, 50, 100], true) ∧
    (panicLevel ≠ "high" → panicLevel ≠ "medium" → panicLevel ≠ "low" →
      vibrateForDanger s panicLevel false = (none, false)) := by
  cases s with
  | mk sup en =>
    simp only at hs he
    subst hs
    subst he
    refine ⟨rfl, rfl, rfl, rfl, ?_⟩
    intro h1 h2 h3
    simp [vibrateForDanger, h1, h2, h3]

/-- C2 witness: at panicLevel none, isPanic true fires the panic pattern
and isPanic false fires nothing and returns false. -/
theorem vibrateForDanger_selection_witness :
    vibrateForDanger { isSupported := true, isEnabled := true } "none" true =
      (some [200, 100, 200, 100, 200, 100, 200, 100, 200], true) ∧
    vibrateForDanger { isSupported := true, isEnabled := true } "none" false =
      (none, false) := by
  have h := vibrateForDanger_selection
    { isSupported := true, isEnabled := true } "none" rfl rfl
  exact ⟨h.1, h.2.2.2.2 (by decide) (by decide) (by decide)⟩

/-- C3: enqueueing a non-empty priority item P while A is playing with
items pending in the FIFO queue stops A immediately, discards the entire
pending queue and makes P the sole playing item — in every audio-channel
state, muted or not, because the priority path invokes the first-render
playAudioData closure whose captured isMuted is pinned to false. -/
theorem priority_preempt (s : AudioState) (A P : String)
    (hA : s.playing = some A) (hq : s.queue ≠ []) (hP : P ≠ "") :
    playBase64Audio P true s =
      { s with playing := some P, isPlaying := true, queue := [] } := by
  simp [playBase64Audio, playAudioDataClosure, hP]

/-- C3 witness: priority item P preempts playing item A with B queued,
here on a muted channel. -/
theorem priority_preempt_witness :
    playBase64Audio "P" true
        { isPlaying := true, isMuted := true, playing := some "A",
          queue := ["B"] } =
      { isPlaying := true, isMuted := true, playing := some "P",
        queue := [] } :=
  priority_preempt
    { isPlaying := true, isMuted := true, playing := some "A",
      queue := ["B"] }
    "A" "P" rfl (by decide) (by decide)

/-- C4: the mute voice command is wired to an unconditional toggleMute, so
from the initial unmuted state issuing it twice ends unmuted, while
mute-unmute-mute ends muted: the two sequences disagree and double mute is
not idempotent, contradicting the stated law. -/
theorem voiceMute_double_diverges :
    (voiceMuteCommand (voiceMuteCommand initialAudioState)).isMuted = false ∧
    (voiceMuteCommand (voiceUnmuteCommand
      (voiceMuteCommand initialAudioState))).isMuted = true ∧
    voiceMuteCommand (voiceMuteCommand initialAudioState) ≠
      voiceMuteCommand (voiceUnmuteCommand
        (voiceMuteCommand initialAudioState)) := by
  decide

/-- C5: command matching lower-cases and trims the transcript and scans
VOICE_COMMANDS in declaration order returning the first command any of
whose aliases occurs as a substring; the transcript about what do you see
yields scan even though the repeat alias also occurs in it; an unmatched
final transcript produces no command and leaves the error slot untouched;
and an interim transcript only updates the display value and never emits
a command. -/
theorem matchCommand_spec (t c interim : String) (s : ListenerState) :
    matchCommand "what do you see please" = some "scan" ∧
    strIncludes (normalizeTranscript "what do you see please") "what" = true ∧
    (matchCommand t = some c ↔
      ∃ l1 p l2, VOICE_COMMANDS = l1 ++ p :: l2 ∧ p.1 = c ∧
        anyAliasHits (normalizeTranscript t) p.2 = true ∧
        ∀ q ∈ l1, anyAliasHits (normalizeTranscript t) q.2 = false) ∧
    (matchCommand t = none ↔
      ∀ p ∈ VOICE_COMMANDS, anyAliasHits (normalizeTranscript t) p.2 = false) ∧
    (t ≠ "" → matchCommand t = none →
      onResult t "" s = ({ s with transcript := t }, none)) ∧
    onResult "" interim s = ({ s with transcript := interim }, none) := by
  refine ⟨by decide, by decide, ?_, ?_, ?_, ?_⟩
  · exact firstMatch_eq_some_iff (normalizeTranscript t) VOICE_COMMANDS c
  · exact firstMatch_eq_none_iff (normalizeTranscript t) VOICE_COMMANDS
  · intro ht hm
    simp [onResult, ht, hm]
  · simp [onResult]

/-- C5 witness: the scan command wins over repeat on the scenario
transcript, and an unmatched final transcript only updates the display. -/
theorem matchCommand_spec_witness :
    matchCommand "what do you see please" = some "scan" ∧
    onResult "zzz" ""
        { isEnabled := true, isListening := true, continuousMode := true,
          hasRecognition := true, restartPending := false, transcript := "",
          lastCommand := none, error := none } =
      ({ isEnabled := true, isListening := true, continuousMode := true,
         hasRecognition := true, restartPending := false, transcript := "zzz",
         lastCommand := none, error := none }, none) := by
  have h := matchCommand_spec "zzz" "scan" "hi"
    { isEnabled := true, isListening := true, continuousMode := true,
      hasRecognition := true, restartPending := false, transcript := "",
      lastCommand := none, error := none }
  exact ⟨h.1, h.2.2.2.2.1 (by decide) (by decide)⟩

/-- C6: the not-allowed recognition error surfaces the fixed
microphone-denied message and disables the listener; no-speech and aborted
are fully swallowed, changing neither the error slot nor the enabled flag;
and every other error code surfaces the code itself while leaving the
listener enabled. -/
theorem onError_spec (s : ListenerState) (code : String) :
    (onError "not-allowed" s).error = some "Microphone access denied" ∧
    (onError "not-allowed" s).isEnabled = false ∧
    (onError "no-speech" s).error = s.error ∧
    (onError "no-speech" s).isEnabled = s.isEnabled ∧
    (onError "aborted" s).error = s.error ∧
    (onError "aborted" s).isEnabled = s.isEnabled ∧
    (code ≠ "not-allowed" → code ≠ "no-speech" → code ≠ "aborted" →
      (onError code s).error = some code ∧
      (onError code s).isEnabled = s.isEnabled) := by
  refine ⟨by simp [onError], by simp [onError], by simp [onError],
    by simp [onError], by simp [onError], by simp [onError], ?_⟩
  intro h1 h2 h3
  constructor <;> simp [onError, h1, h2, h3]

/-- C6 witness: an unrelated network error code is surfaced verbatim and
the listener stays enabled. -/
theorem onError_spec_witness :
    (onError "network"
      { isEnabled := true, isListening := true, continuousMode := true,
        hasRecognition := true, restartPending := false, transcript := "",
        lastCommand := none, error := none }).error = some "network" ∧
    (onError "network"
      { isEnabled := true, isListening := true, continuousMode := true,
        hasRecognition := true, restartPending := false, transcript := "",
        lastCommand := none, error := none }).isEnabled = true := by
  have h := (onError_spec
    { isEnabled := true, isListening := true, continuousMode := true,
      hasRecognition := true, restartPending := false, transcript := "",
      lastCommand := none, error := none }
    "network").2.2.2.2.2.2 (by decide) (by decide) (by decide)
  exact ⟨h.1, h.2⟩

/-- C7: the self-healing restart never fires on the code. The recognition
handlers captured isEnabled from the render in which they were attached —
always a render where it was still false — so when the session ends while
the listener is enabled in continuous mode with a live recognition ref,
onend only clears isListening and arms no delayed restart: the session is
not restarted, contrary to the claim. -/
theorem onEnd_restart_never_fires :
    onEndClosure handlersCapturedIsEnabled
        { isEnabled := true, isListening := true, continuousMode := true,
          hasRecognition := true, restartPending := false, transcript := "",
          lastCommand := none, error := none } =
      { isEnabled := true, isListening := false, continuousMode := true,
        hasRecognition := true, restartPending := false, transcript := "",
        lastCommand := none, error := none } := by
  decide

/-- C8: the restart after a toggle does not use the opposite facing mode.
Toggling the active environment-facing camera stops the stream, waits
100ms and restarts — but through the startCamera closure captured before
the flip, so the getUserMedia request still asks for the environment
facing even though the facingMode state now reports user: the stream does
not restart with the opposite camera, contrary to the claim. -/
theorem toggleCamera_restarts_old_facing :
    (toggleCamera (some 1) "err"
      { isActive := true, facingMode := "environment", stream := some 0,
        hasPermission := some true, error := none }).2 =
      [CamAction.stopStream, CamAction.waitMs 100,
       CamAction.startStream "environment"] ∧
    (toggleCamera (some 1) "err"
      { isActive := true, facingMode := "environment", stream := some 0,
        hasPermission := some true, error := none }).1.facingMode = "user" ∧
    (toggleCamera (some 1) "err"
      { isActive := true, facingMode := "environment", stream := some 0,
        hasPermission := some true, error := none }).2 ≠
      [CamAction.stopStream, CamAction.waitMs 100,
       CamAction.startStream "user"] := by
  decide

/-- C9: when the capture source is not active, handleScan is a silent
no-op beyond the stated Idle precondition: the state is unchanged — no
transition toward Analyzing, no error surfaced — and no haptic tap,
capture or analysis action fires. -/
theorem handleScan_cameraInactive_noop (s : AppState)
    (h : s.cameraActive = false) :
    handleScanStart s = (s, []) := by
  simp [handleScanStart, handleScanClosure, h]

/-- C9 witness: handleScan with the camera inactive from the Idle state
does nothing at all. -/
theorem handleScan_cameraInactive_noop_witness :
    handleScanStart
        { cameraActive := false, isAnalyzing := false, isScanning := false,
          error := none, lastDescription := "" } =
      ({ cameraActive := false, isAnalyzing := false, isScanning := false,
         error := none, lastDescription := "" }, []) :=
  handleScan_cameraInactive_noop
    { cameraActive := false, isAnalyzing := false, isScanning := false,
      error := none, lastDescription := "" }
    rfl

/-- C10: with haptics supported and enabled, vibrate on any name outside
the seven defined pattern names neither fails nor does nothing: it falls
back to the info pattern and returns true. -/
theorem vibrate_unknown_falls_back_info (s : HapticState) (name : String)
    (hs : s.isSupported = true) (he : s.isEnabled = true)
    (hname : name ∉ hapticPatternNames) :
    vibrate s name = (some [50], true) := by
  simp [hapticPatternNames] at hname
  obtain ⟨h1, h2, h3, h4, h5, h6, h7⟩ := hname
  simp [vibrate, hapticPatternLookup, hs, he, h1, h2, h3, h4, h5, h6, h7]

/-- C10 witness: an undefined pattern name vibrates the info pattern. -/
theorem vibrate_unknown_falls_back_info_witness :
    vibrate { isSupported := true, isEnabled := true } "bogus" =
      (some [50], true) :=
  vibrate_unknown_falls_back_info
    { isSupported := true, isEnabled := true } "bogus" rfl rfl (by decide)

end FreeSight
